import Mathlib

/-
Verification of the IPL_DASHBOARD caching and refresh pipeline.

The development shallowly embeds the parts of the repository that the
freshness / fallback / refresh claims are about:

* the node-cache instance and the /api/schedule handler of
  scraper-service/server.js (origin tier);
* the GET handler of src/app/api/matches/route.ts and its mock-data
  fallback (consumer-facing API tier);
* the navigateWithRetry loop of scraper-service/lib/browser.js;
* the forceRefreshAll orchestration of src/configs/swrConfig.ts;
* the ETag computation (MD5 of the JSON serialization) of the API routes;
* the swrKeys key generators (exported and inline client copy);
* the dataFreshness classification of useLiveIPL;
* organizeMatchesByType of scraper-service/scrapers/schedule.js.

Library behaviour (node-cache, node-cron, URLSearchParams, JSON.stringify,
the MD5 digest of createHash) is modelled from the documented semantics of
those libraries, since the repository code relies on it.
-/

namespace IPLDash

/-- One stored node-cache record: the value together with its absolute
expiry instant in milliseconds (0 means no expiry).  This models the
internal record kept per key by the node-cache library used in
scraper-service/server.js. -/
structure NCEntry (α : Type) where
  value : α
  expiry : Nat
deriving DecidableEq

/-- State of the node-cache instance built in scraper-service/server.js
lines 16-23: an association list from keys to entries plus the configured
maxKeys bound (10 in server.js).  The constructor options deleteOnExpire
and stdTTL are reflected in the operations below. -/
structure NodeCacheState (α : Type) where
  entries : List (String × NCEntry α)
  maxKeys : Nat
deriving DecidableEq

/-- node-cache liveness check: an entry is live at time now iff its expiry
is 0 (unlimited) or has not yet passed.  Mirrors the internal check of
node-cache, which treats an entry as expired when t is nonzero and
t < Date.now(). -/
def ncLive {α : Type} (e : NCEntry α) (now : Nat) : Bool :=
  e.expiry = 0 || now ≤ e.expiry

/-- node-cache del: removes the key from the store. -/
def ncDel {α : Type} (s : NodeCacheState α) (k : String) : NodeCacheState α :=
  { s with entries := s.entries.filter (fun p => p.1 ≠ k) }

/-- node-cache get with deleteOnExpire true (the configuration of
server.js): a lookup of an expired key deletes the entry and returns
nothing; only a live entry produces a value.  Returns the value (if any)
together with the possibly updated store. -/
def ncGet {α : Type} (s : NodeCacheState α) (k : String) (now : Nat) :
    Option α × NodeCacheState α :=
  match s.entries.lookup k with
  | none => (none, s)
  | some e => if ncLive e now then (some e.value, s) else (none, ncDel s k)

/-- Error code thrown by node-cache set when the store already holds
maxKeys keys. -/
def ecacheFull : String := "ECACHEFULL"

/-- node-cache set: if the store already holds at least maxKeys keys the
write is rejected with ECACHEFULL (this is checked before looking at the
key, so even an overwrite is rejected at capacity); otherwise the entry is
stored, replacing an existing entry for the key. -/
def ncSet {α : Type} (s : NodeCacheState α) (k : String) (v : α)
    (expiry : Nat) : Except String (NodeCacheState α) :=
  if s.maxKeys ≤ s.entries.length then
    Except.error ecacheFull
  else
    Except.ok
      { s with entries :=
          if (s.entries.lookup k).isSome then
            s.entries.map (fun p => if p.1 = k then (k, ⟨v, expiry⟩) else p)
          else
            s.entries ++ [(k, ⟨v, expiry⟩)] }

/-- Cache key used by the /api/schedule handler of server.js. -/
def scheduleKey : String := "schedule-data"

/-- stdTTL of the server.js cache (5400 seconds) converted to the
milliseconds added by node-cache to Date.now() when an entry is stored. -/
def stdTTLms : Nat := 5400 * 1000

/-- Value cached by the /api/schedule handler: the object
with fields data and timestamp built at server.js lines 84-87. -/
structure CachedDoc (α : Type) where
  data : α
  timestamp : String
deriving DecidableEq

/-- Outcome of one awaited scrapeSchedule call, as produced by
createResult in scraper-service/lib/browser.js: either success with the
organized schedule, or failure with an error message.  The timestamp is
the ISO string createResult attaches. -/
inductive ScrapeOutcome (α : Type) where
  | ok (data : α) (timestamp : String)
  | fail (error : String) (timestamp : String)
deriving DecidableEq

/-- JSON body sent by the /api/schedule handler (any of its res.json and
res.status(500).json calls).  Absent fields are none. -/
structure OriginResponse (α : Type) where
  status : Nat
  success : Bool
  data : Option α
  timestamp : Option String
  source : Option String
  warning : Option String
  error : Option String
deriving DecidableEq

/-- Response body for the res.json(result) call at server.js line 104:
the createResult object of the scrape itself (source is always
"scraping", per the default argument of createResult). -/
def scrapeResultResponse {α : Type} (scrape : ScrapeOutcome α) : OriginResponse α :=
  match scrape with
  | ScrapeOutcome.ok d ts =>
      { status := 200, success := true, data := some d, timestamp := some ts,
        source := some "scraping", warning := none, error := none }
  | ScrapeOutcome.fail e ts =>
      { status := 200, success := false, data := none, timestamp := some ts,
        source := some "scraping", warning := none, error := some e }

/-- Second half of the /api/schedule handler (server.js lines 78-104),
entered after the cache either missed or was cleared by a force refresh:
scrape, cache a successful result (a throwing cache.set lands in the outer
catch, producing the 500 body of lines 108-112), and on failure of a
non-forced request attempt the stale-cache branch of lines 89-102. -/
def scheduleAfterScrape {α : Type} (c : NodeCacheState (CachedDoc α))
    (force : Bool) (scrape : ScrapeOutcome α) (now : Nat) :
    OriginResponse α × NodeCacheState (CachedDoc α) :=
  match scrape with
  | ScrapeOutcome.ok d ts =>
      match ncSet c scheduleKey ⟨d, ts⟩ (now + stdTTLms) with
      | Except.ok c2 => (scrapeResultResponse scrape, c2)
      | Except.error e =>
          ({ status := 500, success := false, data := none, timestamp := some ts,
             source := none, warning := none, error := some e }, c)
  | ScrapeOutcome.fail _ _ =>
      if force then (scrapeResultResponse scrape, c)
      else
        match ncGet c scheduleKey now with
        | (some doc, c2) =>
            ({ status := 200, success := true, data := some doc.data,
               timestamp := some doc.timestamp, source := some "stale-cache",
               warning := some "Data may be outdated due to scraping failure",
               error := none }, c2)
        | (none, c2) => (scrapeResultResponse scrape, c2)

/-- The GET /api/schedule handler of scraper-service/server.js lines
55-114, as a function of the cache state, the refresh query flag, the
outcome the awaited scrapeSchedule call will produce, and the current
time.  A forced request clears the key first; an unforced request serves a
live cache entry directly. -/
def scheduleHandler {α : Type} (c : NodeCacheState (CachedDoc α))
    (force : Bool) (scrape : ScrapeOutcome α) (now : Nat) :
    OriginResponse α × NodeCacheState (CachedDoc α) :=
  if force then
    scheduleAfterScrape (ncDel c scheduleKey) force scrape now
  else
    match ncGet c scheduleKey now with
    | (some doc, c1) =>
        ({ status := 200, success := true, data := some doc.data,
           timestamp := some doc.timestamp, source := some "cache",
           warning := none, error := none }, c1)
    | (none, c1) => scheduleAfterScrape c1 force scrape now

/-- Which tier of the fallback chain ultimately served a consumer-facing
/api/matches request. -/
inductive ServedTier where
  | cacheTier
  | freshTier
  | staleTier
  | mockFallbackTier
deriving DecidableEq

/-- Data-acquisition result of the GET /api/matches route: the payload
obtained from the origin (none when the mock fallback dataset was used),
the tier that served it, and the usingMockData flag of the route. -/
structure ResolveOutcome (α : Type) where
  payload : Option α
  tier : ServedTier
  usedMock : Bool
deriving DecidableEq

/-- Tier named by the source field of an origin response body. -/
def tierOfSource (src : Option String) : ServedTier :=
  match src with
  | some "cache" => ServedTier.cacheTier
  | some "stale-cache" => ServedTier.staleTier
  | _ => ServedTier.freshTier

/-- Composite resolve path of GET /api/matches (route.ts lines 40-70) in
front of GET /api/schedule (server.js lines 55-114), with mock data
disabled (production path): the route forwards the refresh flag, throws on
a non-OK status or an unsuccessful body, and in that case falls back to
getFallbackMockData, setting usingMockData. -/
def matchesResolve {α : Type} (c : NodeCacheState (CachedDoc α))
    (force : Bool) (scrape : ScrapeOutcome α) (now : Nat) :
    ResolveOutcome α × NodeCacheState (CachedDoc α) :=
  let r := scheduleHandler c force scrape now
  if r.1.status = 200 ∧ r.1.success then
    ({ payload := r.1.data, tier := tierOfSource r.1.source, usedMock := false }, r.2)
  else
    ({ payload := none, tier := ServedTier.mockFallbackTier, usedMock := true }, r.2)

/-- Synchronous opening of the /api/schedule handler, up to the first
await: does a request entering with the given cache state reach the
scrapeSchedule call?  Forced requests always do (lines 61-63); unforced
requests scrape iff the cache lookup of lines 66-75 misses. -/
def startsScrape {α : Type} (c : NodeCacheState (CachedDoc α))
    (force : Bool) (now : Nat) : Bool :=
  force || ((ncGet c scheduleKey now).1).isNone

/-- Number of upstream scrapeSchedule invocations made by n concurrent
unforced /api/schedule requests that all run their synchronous cache check
before any of the started scrapes completes (the single-threaded event
loop interleaving of simultaneous arrivals).  Each request decides against
the same initial cache state; the handler contains no in-flight map or
other coordination between requests. -/
def concurrentUpstreamCalls {α : Type} (c : NodeCacheState (CachedDoc α))
    (now n : Nat) : Nat :=
  (List.replicate n (startsScrape c false now)).count true

/-- Result object returned by forceRefreshAll in the client hooks module
of src/configs/swrConfig.ts: a success flag and, on failure, the single
caught error.  The code has no per-key error map. -/
structure RefreshResult where
  success : Bool
  error : Option String
deriving DecidableEq

/-- Execution trace of one forceRefreshAll run: whether the phase-3
revalidation step was reached. -/
structure RefreshTrace where
  phase1Ran : Bool
  phase3Ran : Bool
deriving DecidableEq

/-- Promise.all over already-settled outcomes, rendered deterministically:
the first rejection in list order, if any. -/
def firstError : List (Except String Unit) → Option String
  | [] => none
  | Except.error e :: _ => some e
  | Except.ok _ :: xs => firstError xs

/-- forceRefreshAll of src/configs/swrConfig.ts (client hooks module,
lines 387-414): phase 1 clears the local SWR snapshots (local mutate
calls, which never fail), phase 2 runs the per-key server force-refresh
calls under Promise.all, phase 3 runs the per-key revalidations under
Promise.all.  Any rejection lands in the single catch, which returns
success false with that error; a phase-2 rejection therefore skips phase 3
entirely.  The outcomes of the phase-2 and phase-3 calls are the inputs. -/
def forceRefreshAll (p2 p3 : List (Except String Unit)) :
    RefreshResult × RefreshTrace :=
  match firstError p2 with
  | some e => ({ success := false, error := some e }, { phase1Ran := true, phase3Ran := false })
  | none =>
      match firstError p3 with
      | some e => ({ success := false, error := some e }, { phase1Ran := true, phase3Ran := true })
      | none => ({ success := true, error := none }, { phase1Ran := true, phase3Ran := true })

/-- State of the scheduled scraping job of server.js lines 383-412: the
finish times of executions still pending, the number started so far, and
whether a tick ever fired while a previous execution was still running. -/
structure CronState where
  runningUntil : List Nat
  started : Nat
  overlapped : Bool
deriving DecidableEq

/-- One node-cron tick at time t with job duration dur: the async cron
callback of server.js contains no reentrancy flag, and node-cron fires it
on every matching tick regardless of pending invocations, so a new
execution starts unconditionally.  Executions finished by t are removed;
overlap is recorded when an earlier execution is still pending. -/
def cronTick (s : CronState) (t dur : Nat) : CronState :=
  let pending := s.runningUntil.filter (fun f => t < f)
  { runningUntil := (t + dur) :: pending,
    started := s.started + 1,
    overlapped := s.overlapped || !pending.isEmpty }

/-- Runs the scheduled job over the given tick instants (ascending), each
execution taking dur time units. -/
def cronRun (ticks : List Nat) (dur : Nat) : CronState :=
  ticks.foldl (fun s t => cronTick s t dur) { runningUntil := [], started := 0, overlapped := false }

/-- The navigation-relevant fields of DEFAULT_CONFIG in
scraper-service/lib/types.js. -/
structure ScraperConfig where
  timeout : Nat
  delay : Nat
  retries : Nat
deriving DecidableEq

/-- DEFAULT_CONFIG of scraper-service/lib/types.js lines 9-19. -/
def defaultConfig : ScraperConfig :=
  { timeout := 30000, delay := 5000, retries := 3 }

/-- Trace of one navigateWithRetry run: how many page.goto attempts were
issued, the sleeps performed between attempts, and whether navigation
succeeded before the budget ran out. -/
structure NavTrace where
  attempts : Nat
  delays : List Nat
  success : Bool
deriving DecidableEq

/-- The while loop of navigateWithRetry in scraper-service/lib/browser.js:
outcome i tells whether the i-th page.goto attempt succeeds (each attempt
is a fresh call); a failure decrements the retry budget, throws once it is
exhausted, and otherwise sleeps config.delay before the next attempt. -/
def navLoop (delay : Nat) (outcome : Nat → Bool) : Nat → Nat → NavTrace
  | 0, i => { attempts := i, delays := [], success := false }
  | r + 1, i =>
      if outcome i then { attempts := i + 1, delays := [], success := true }
      else if r = 0 then { attempts := i + 1, delays := [], success := false }
      else
        let t := navLoop delay outcome r (i + 1)
        { attempts := t.attempts, delays := delay :: t.delays, success := t.success }

/-- navigateWithRetry of scraper-service/lib/browser.js, entered with the
full retry budget config.retries. -/
def navigateWithRetry (cfg : ScraperConfig) (outcome : Nat → Bool) : NavTrace :=
  navLoop cfg.delay outcome cfg.retries 0

/-- Freshness classes produced by the dataFreshness memo of useLiveIPL. -/
inductive FreshnessClass where
  | fresh
  | stale
  | old
deriving DecidableEq

/-- The pair of classifications returned by the dataFreshness memo. -/
structure DataFreshness where
  live : FreshnessClass
  points : FreshnessClass
deriving DecidableEq

/-- The dataFreshness computation of useLiveIPL (client hooks module of
src/configs/swrConfig.ts, lines 417-429): timestamps are epoch
milliseconds (a missing response timestamp is treated as 0), ages are
(now - timestamp) / 1000 seconds; live data is fresh under 30 s and stale
under 120 s, points data is fresh under 120 s and stale under 300 s,
anything older is old.  Rationals stand in for JS number arithmetic. -/
def dataFreshness (now : ℚ) (liveTs pointsTs : Option ℚ) : DataFreshness :=
  let liveAge := (now - liveTs.getD 0) / 1000
  let pointsAge := (now - pointsTs.getD 0) / 1000
  { live :=
      if liveAge < 30 then FreshnessClass.fresh
      else if liveAge < 120 then FreshnessClass.stale
      else FreshnessClass.old,
    points :=
      if pointsAge < 120 then FreshnessClass.fresh
      else if pointsAge < 300 then FreshnessClass.stale
      else FreshnessClass.old }

/-- Uppercase hex digit, used by the URLSearchParams percent-encoder. -/
def hexDigitUpper (n : Nat) : Char :=
  if n < 10 then Char.ofNat (48 + n) else Char.ofNat (55 + n)

/-- UTF-8 bytes of a unicode code point. -/
def utf8BytesOfCode (n : Nat) : List Nat :=
  if n < 128 then [n]
  else if n < 2048 then [192 + n / 64, 128 + n % 64]
  else if n < 65536 then [224 + n / 4096, 128 + (n / 64) % 64, 128 + n % 64]
  else [240 + n / 262144, 128 + (n / 4096) % 64, 128 + (n / 64) % 64, 128 + n % 64]

/-- Percent-encoding of one character under the
application/x-www-form-urlencoded serializer used by
URLSearchParams.toString: ASCII alphanumerics and the characters
asterisk, hyphen, period, underscore pass through, a space becomes a
plus, everything else becomes a percent-escaped UTF-8 byte sequence. -/
def formEncodeChar (c : Char) : String :=
  if c.isAlphanum && c.toNat < 128 then String.singleton c
  else if c = '*' || c = '-' || c = '.' || c = '_' then String.singleton c
  else if c = ' ' then "+"
  else String.join ((utf8BytesOfCode c.toNat).map
    (fun b => String.mk ['%', hexDigitUpper (b / 16), hexDigitUpper (b % 16)]))

/-- Form-encoding of a whole string. -/
def formEncode (s : String) : String :=
  String.join (s.data.map formEncodeChar)

/-- URLSearchParams modelled as the list of appended name-value pairs;
toString serializes them in insertion order. -/
def searchParamsToString (ps : List (String × String)) : String :=
  String.intercalate "&" (ps.map (fun p => formEncode p.1 ++ "=" ++ formEncode p.2))

/-- The apiEndpoints constants of src/configs/swrConfig.ts lines 42-46. -/
def apiEndpointsMatches : String := "/api/matches"

/-- The points-table entry of apiEndpoints. -/
def apiEndpointsPointsTable : String := "/api/points-table"

/-- The schedule entry of apiEndpoints. -/
def apiEndpointsSchedule : String := "/api/schedule"

/-- Filter record accepted by swrKeys.schedule. -/
structure ScheduleFilters where
  matchType : Option String
  team : Option String
  venue : Option String
  fromDate : Option String
  toDate : Option String
deriving DecidableEq

/-- Appends a filter parameter when the optional value is truthy (present
and not the empty string), as the JS guard if (value) does. -/
def appendTruthy (name : String) (v : Option String) : List (String × String) :=
  match v with
  | some s => if s ≠ "" then [(name, s)] else []
  | none => []

/-- Exported swrKeys.matches of src/configs/swrConfig.ts lines 50-56: the
status parameter is appended when truthy and not "all", the limit
parameter when truthy (nonzero) and not 10; the query string, when
nonempty, is attached to apiEndpoints.matches. -/
def swrKeysMatches (status : Option String) (limit : Option Nat) : String :=
  let params : List (String × String) :=
    (match status with
     | some s => if s ≠ "" ∧ s ≠ "all" then [("status", s)] else []
     | none => []) ++
    (match limit with
     | some l => if l ≠ 0 ∧ l ≠ 10 then [("limit", toString l)] else []
     | none => [])
  let query := searchParamsToString params
  apiEndpointsMatches ++ (if query ≠ "" then "?" ++ query else "")

/-- Exported swrKeys.pointsTable of src/configs/swrConfig.ts lines 58-64. -/
def swrKeysPointsTable (sort : Option String) (order : Option String) : String :=
  let params : List (String × String) :=
    (match sort with
     | some s => if s ≠ "" ∧ s ≠ "position" then [("sort", s)] else []
     | none => []) ++
    (match order with
     | some o => if o ≠ "" ∧ o ≠ "asc" then [("order", o)] else []
     | none => [])
  let query := searchParamsToString params
  apiEndpointsPointsTable ++ (if query ≠ "" then "?" ++ query else "")

/-- Exported swrKeys.schedule of src/configs/swrConfig.ts lines 66-81. -/
def swrKeysSchedule (filters : Option ScheduleFilters) : String :=
  let params : List (String × String) :=
    (match filters with
     | some f =>
         appendTruthy "matchType" f.matchType ++ appendTruthy "team" f.team ++
         appendTruthy "venue" f.venue ++ appendTruthy "fromDate" f.fromDate ++
         appendTruthy "toDate" f.toDate
     | none => [])
  let query := searchParamsToString params
  apiEndpointsSchedule ++ (if query ≠ "" then "?" ++ query else "")

/-- Inline swrKeys.matches of the client hooks module (second document of
src/configs/swrConfig.ts, lines 181-187), with its literal endpoint. -/
def clientSwrKeysMatches (status : Option String) (limit : Option Nat) : String :=
  let params : List (String × String) :=
    (match status with
     | some s => if s ≠ "" ∧ s ≠ "all" then [("status", s)] else []
     | none => []) ++
    (match limit with
     | some l => if l ≠ 0 ∧ l ≠ 10 then [("limit", toString l)] else []
     | none => [])
  let query := searchParamsToString params
  "/api/matches" ++ (if query ≠ "" then "?" ++ query else "")

/-- Inline swrKeys.pointsTable of the client hooks module, lines 189-195. -/
def clientSwrKeysPointsTable (sort : Option String) (order : Option String) : String :=
  let params : List (String × String) :=
    (match sort with
     | some s => if s ≠ "" ∧ s ≠ "position" then [("sort", s)] else []
     | none => []) ++
    (match order with
     | some o => if o ≠ "" ∧ o ≠ "asc" then [("order", o)] else []
     | none => [])
  let query := searchParamsToString params
  "/api/points-table" ++ (if query ≠ "" then "?" ++ query else "")

/-- Inline swrKeys.schedule of the client hooks module, lines 197-212. -/
def clientSwrKeysSchedule (filters : Option ScheduleFilters) : String :=
  let params : List (String × String) :=
    (match filters with
     | some f =>
         appendTruthy "matchType" f.matchType ++ appendTruthy "team" f.team ++
         appendTruthy "venue" f.venue ++ appendTruthy "fromDate" f.fromDate ++
         appendTruthy "toDate" f.toDate
     | none => [])
  let query := searchParamsToString params
  "/api/schedule" ++ (if query ≠ "" then "?" ++ query else "")

/-- Does needle occur at the head of hay? -/
def matchesAt : List Char → List Char → Bool
  | [], _ => true
  | _ :: _, [] => false
  | n :: ns, h :: hs => n = h && matchesAt ns hs

/-- Does needle occur anywhere in hay?  Models
String.prototype.includes. -/
def containsSub (needle : List Char) : List Char → Bool
  | [] => matchesAt needle []
  | h :: hs => matchesAt needle (h :: hs) || containsSub needle hs

/-- JS hay.includes(needle). -/
def strIncludes (hay needle : String) : Bool :=
  containsSub needle.data hay.data

/-- A scraped match, restricted to the field organizeMatchesByType reads
plus an identifying number standing in for the remaining fields.  A
missing or empty matchType is falsy in JS. -/
structure ScrapedMatch where
  matchType : Option String
  matchNumber : Nat
deriving DecidableEq

/-- The schedule object literal of organizeMatchesByType
(scraper-service/scrapers/schedule.js lines 244-249), with its four
buckets. -/
structure OrganizedSchedule where
  preSeason : List ScrapedMatch
  league : List ScrapedMatch
  playoffs : List ScrapedMatch
  final : List ScrapedMatch
deriving DecidableEq

/-- Object.keys view of the schedule object: its four keys in literal
order with their buckets. -/
def scheduleEntriesOf (s : OrganizedSchedule) : List (String × List ScrapedMatch) :=
  [("PRE SEASON", s.preSeason), ("LEAGUE", s.league),
   ("PLAYOFFS", s.playoffs), ("FINAL", s.final)]

/-- The four bucket names of the schedule object literal. -/
inductive BucketTag where
  | preSeasonTag
  | leagueTag
  | playoffsTag
  | finalTag
deriving DecidableEq

/-- JS String.prototype.toLowerCase on the ASCII match-type strings:
every character is lowercased individually. -/
def jsToLower (s : String) : String :=
  String.mk (s.data.map Char.toLower)

/-- The routing chain of the forEach body in organizeMatchesByType
(schedule.js lines 252-265): the falsy-defaulted matchType is lowercased
and tested with includes, in order, for pre or practice, then final, then
playoff or qualifier or eliminator, with LEAGUE as the default. -/
def categorize (mt : Option String) : BucketTag :=
  let type :=
    match mt with
    | some s => if s ≠ "" then s else "LEAGUE"
    | none => "LEAGUE"
  let lowerType := jsToLower type
  if strIncludes lowerType "pre" || strIncludes lowerType "practice" then
    BucketTag.preSeasonTag
  else if strIncludes lowerType "final" then
    BucketTag.finalTag
  else if strIncludes lowerType "playoff" || strIncludes lowerType "qualifier" ||
      strIncludes lowerType "eliminator" then
    BucketTag.playoffsTag
  else
    BucketTag.leagueTag

/-- The body of the forEach in organizeMatchesByType (schedule.js lines
252-266): the match is pushed onto exactly the bucket the routing chain
selects. -/
def pushMatch (sched : OrganizedSchedule) (m : ScrapedMatch) : OrganizedSchedule :=
  match categorize m.matchType with
  | BucketTag.preSeasonTag => { sched with preSeason := sched.preSeason ++ [m] }
  | BucketTag.finalTag => { sched with final := sched.final ++ [m] }
  | BucketTag.playoffsTag => { sched with playoffs := sched.playoffs ++ [m] }
  | BucketTag.leagueTag => { sched with league := sched.league ++ [m] }

/-- organizeMatchesByType of scraper-service/scrapers/schedule.js lines
243-269. -/
def organizeMatchesByType (ms : List ScrapedMatch) : OrganizedSchedule :=
  ms.foldl pushMatch
    { preSeason := [], league := [], playoffs := [], final := [] }

/-- Total number of matches across the four buckets. -/
def totalCount (s : OrganizedSchedule) : Nat :=
  s.preSeason.length + s.league.length + s.playoffs.length + s.final.length

/-- Modulus of 32-bit arithmetic. -/
def m32 : Nat := 4294967296

/-- The 64 sine-table constants of the MD5 algorithm (RFC 1321), which is
what createHash("md5") in the API routes computes. -/
def md5K : List Nat :=
  [0xd76aa478, 0xe8c7b756, 0x242070db, 0xc1bdceee,
   0xf57c0faf, 0x4787c62a, 0xa8304613, 0xfd469501,
   0x698098d8, 0x8b44f7af, 0xffff5bb1, 0x895cd7be,
   0x6b901122, 0xfd987193, 0xa679438e, 0x49b40821,
   0xf61e2562, 0xc040b340, 0x265e5a51, 0xe9b6c7aa,
   0xd62f105d, 0x02441453, 0xd8a1e681, 0xe7d3fbc8,
   0x21e1cde6, 0xc33707d6, 0xf4d50d87, 0x455a14ed,
   0xa9e3e905, 0xfcefa3f8, 0x676f02d9, 0x8d2a4c8a,
   0xfffa3942, 0x8771f681, 0x6d9d6122, 0xfde5380c,
   0xa4beea44, 0x4bdecfa9, 0xf6bb4b60, 0xbebfbc70,
   0x289b7ec6, 0xeaa127fa, 0xd4ef3085, 0x04881d05,
   0xd9d4d039, 0xe6db99e5, 0x1fa27cf8, 0xc4ac5665,
   0xf4292244, 0x432aff97, 0xab9423a7, 0xfc93a039,
   0x655b59c3, 0x8f0ccc92, 0xffeff47d, 0x85845dd1,
   0x6fa87e4f, 0xfe2ce6e0, 0xa3014314, 0x4e0811a1,
   0xf7537e82, 0xbd3af235, 0x2ad7d2bb, 0xeb86d391]

/-- The per-step left-rotation amounts of MD5. -/
def md5S : List Nat :=
  [7, 12, 17, 22, 7, 12, 17, 22, 7, 12, 17, 22, 7, 12, 17, 22,
   5, 9, 14, 20, 5, 9, 14, 20, 5, 9, 14, 20, 5, 9, 14, 20,
   4, 11, 16, 23, 4, 11, 16, 23, 4, 11, 16, 23, 4, 11, 16, 23,
   6, 10, 15, 21, 6, 10, 15, 21, 6, 10, 15, 21, 6, 10, 15, 21]

/-- Bitwise complement on 32-bit words. -/
def bnot32 (x : Nat) : Nat := Nat.xor x 4294967295

/-- Left rotation on 32-bit words. -/
def rotl32 (x s : Nat) : Nat := ((x <<< s) % m32) ||| (x >>> (32 - s))

/-- MD5 message padding: a 0x80 byte, zeros up to 56 mod 64, then the
bit length as a 64-bit little-endian quantity. -/
def md5Pad (msg : List Nat) : List Nat :=
  let len := msg.length
  let zeros := (119 - (len % 64)) % 64
  let bitLen := (len * 8) % (2 ^ 64)
  msg ++ [128] ++ List.replicate zeros 0 ++
    (List.range 8).map (fun i => (bitLen >>> (8 * i)) % 256)

/-- Little-endian 32-bit word i of a 64-byte block. -/
def leWord (bytes : List Nat) (i : Nat) : Nat :=
  bytes.getD (4 * i) 0 + 256 * bytes.getD (4 * i + 1) 0 +
    65536 * bytes.getD (4 * i + 2) 0 + 16777216 * bytes.getD (4 * i + 3) 0

/-- The four 32-bit chaining words of MD5. -/
structure MD5State where
  a : Nat
  b : Nat
  c : Nat
  d : Nat

/-- One MD5 compression of a 64-byte block: 64 steps of the four round
functions, followed by the feed-forward addition. -/
def md5Compress (st : MD5State) (block : List Nat) : MD5State :=
  let step := fun (t : Nat × Nat × Nat × Nat) (i : Nat) =>
    let a := t.1; let b := t.2.1; let c := t.2.2.1; let d := t.2.2.2
    let f :=
      if i < 16 then (b &&& c) ||| ((bnot32 b) &&& d)
      else if i < 32 then (d &&& b) ||| ((bnot32 d) &&& c)
      else if i < 48 then Nat.xor (Nat.xor b c) d
      else Nat.xor c (b ||| bnot32 d)
    let g :=
      if i < 16 then i
      else if i < 32 then (5 * i + 1) % 16
      else if i < 48 then (3 * i + 5) % 16
      else (7 * i) % 16
    let tmp := (a + f + md5K.getD i 0 + leWord block g) % m32
    ((d, ((b + rotl32 tmp (md5S.getD i 0)) % m32, (b, c))) : Nat × Nat × Nat × Nat)
  let r := (List.range 64).foldl step (st.a, st.b, st.c, st.d)
  { a := (st.a + r.1) % m32, b := (st.b + r.2.1) % m32,
    c := (st.c + r.2.2.1) % m32, d := (st.d + r.2.2.2) % m32 }

/-- Runs the compression over a padded message, 64 bytes at a time. -/
def md5Blocks (st : MD5State) (bytes : List Nat) : MD5State :=
  (bytes.foldl (fun (p : MD5State × List Nat) b =>
    let buf := p.2 ++ [b]
    if buf.length = 64 then (md5Compress p.1 buf, []) else (p.1, buf))
    (st, [])).1

/-- The MD5 initial chaining values. -/
def md5Init : MD5State :=
  { a := 0x67452301, b := 0xefcdab89, c := 0x98badcfe, d := 0x10325476 }

/-- Digest assembly: the final chaining words read as one natural number
whose base-256 digits are the standard digest bytes in output order (a
little-endian, then b, c, d). -/
def md5Final (st : MD5State) : Nat :=
  (st.a % m32) + m32 * ((st.b % m32) + m32 * ((st.c % m32) + m32 * (st.d % m32)))

/-- The 128-bit MD5 digest of a byte sequence. -/
def md5Digest (msg : List Nat) : Nat :=
  md5Final (md5Blocks md5Init (md5Pad msg))

/-- Lowercase hex digit. -/
def hexDigitLower (n : Nat) : Char :=
  if n < 10 then Char.ofNat (48 + n) else Char.ofNat (87 + n)

/-- Two lowercase hex digits of a byte. -/
def byteHexLower (n : Nat) : String :=
  String.mk [hexDigitLower (n / 16), hexDigitLower (n % 16)]

/-- The 32-character lowercase hex rendering of a digest, as produced by
digest("hex") in the API routes. -/
def md5HexOfDigest (dg : Nat) : String :=
  String.join ((List.range 16).map (fun i => byteHexLower ((dg / 256 ^ i) % 256)))

/-- MD5 hex digest of a byte sequence. -/
def md5Hex (msg : List Nat) : String := md5HexOfDigest (md5Digest msg)

/-- UTF-8 bytes of a whole string (the encoding update feeds to the
hash). -/
def strBytes (s : String) : List Nat :=
  (s.data.map (fun c => utf8BytesOfCode c.toNat)).flatten

/-- JSON-serializable payload values, with object fields kept in
insertion order exactly as JSON.stringify sees them. -/
inductive Json where
  | str (s : String)
  | num (n : Int)
  | jbool (b : Bool)
  | jnull
  | arr (elems : List Json)
  | obj (fields : List (String × Json))

/-- JSON.stringify escaping of one string character. -/
def escapeChar (c : Char) : String :=
  if c = '"' then "\\\""
  else if c = '\\' then "\\\\"
  else if c = '\n' then "\\n"
  else if c = '\r' then "\\r"
  else if c = '\t' then "\\t"
  else if c.toNat = 8 then "\\b"
  else if c.toNat = 12 then "\\f"
  else if c.toNat < 32 then
    "\\u00" ++ String.mk [hexDigitLower (c.toNat / 16), hexDigitLower (c.toNat % 16)]
  else String.singleton c

/-- JSON.stringify escaping of a character list. -/
def escapeList : List Char → String
  | [] => ""
  | c :: cs => escapeChar c ++ escapeList cs

/-- A JSON string literal: the escaped contents between double quotes. -/
def quoteStr (s : String) : String := "\"" ++ escapeList s.data ++ "\""

mutual

/-- JSON.stringify of a payload value: the serialization the API routes
hash to produce the ETag (route.ts builds the responseData object and
serializes it with JSON.stringify before hashing). -/
def serializeJson : Json → String
  | Json.str s => quoteStr s
  | Json.num n => toString n
  | Json.jbool b => if b then "true" else "false"
  | Json.jnull => "null"
  | Json.arr xs => "[" ++ serializeElems xs ++ "]"
  | Json.obj fs => "\x7b" ++ serializeFields fs ++ "\x7d"

/-- Comma-joined serialization of array elements. -/
def serializeElems : List Json → String
  | [] => ""
  | [x] => serializeJson x
  | x :: y :: xs => serializeJson x ++ "," ++ serializeElems (y :: xs)

/-- Comma-joined serialization of object fields in insertion order. -/
def serializeFields : List (String × Json) → String
  | [] => ""
  | [(k, v)] => quoteStr k ++ ":" ++ serializeJson v
  | (k, v) :: f :: fs => quoteStr k ++ ":" ++ serializeJson v ++ "," ++ serializeFields (f :: fs)

end

/-- The ETag issued by the API route GET handlers (matches route.ts lines
204-206, points-table route.ts lines 92-94): the double-quoted lowercase
MD5 hex digest of the JSON serialization of the response payload. -/
def etagOf (p : Json) : String :=
  "\"" ++ md5Hex (strBytes (serializeJson p)) ++ "\""

/-- A family of points-table response payloads that differ from one
another only in the value of one field (the team name of the single
standings row); the shape follows the responseData literal of
points-table route.ts. -/
def payloadWithTeam (team : String) : Json :=
  Json.obj
    [("pointsTable", Json.arr [Json.obj [("position", Json.num 1), ("team", Json.str team)]]),
     ("sortedBy", Json.str "position"),
     ("order", Json.str "asc")]

/-- The one-field family indexed by a natural number (the team name is a
run of n letters). -/
def payloadOfNat (n : Nat) : Json :=
  payloadWithTeam (String.mk (List.replicate n 'a'))

/-- Fixture: an origin cache whose only record for the schedule key
expired at instant 1000 (requests arrive at instant 5000000), with the
maxKeys bound configured in server.js. -/
def exCacheExpired : NodeCacheState (CachedDoc Nat) :=
  { entries := [(scheduleKey, { value := { data := 7, timestamp := "t0" }, expiry := 1000 })],
    maxKeys := 10 }

/-- Fixture: a cache holding its full complement of maxKeys = 10 keys
(all with unlimited expiry). -/
def fullCache : NodeCacheState Nat :=
  { entries :=
      [("k0", { value := 0, expiry := 0 }), ("k1", { value := 1, expiry := 0 }),
       ("k2", { value := 2, expiry := 0 }), ("k3", { value := 3, expiry := 0 }),
       ("k4", { value := 4, expiry := 0 }), ("k5", { value := 5, expiry := 0 }),
       ("k6", { value := 6, expiry := 0 }), ("k7", { value := 7, expiry := 0 }),
       ("k8", { value := 8, expiry := 0 }), ("k9", { value := 9, expiry := 0 })],
    maxKeys := 10 }

/-- Count of true in a replicated boolean list. -/
theorem count_true_replicate (n : Nat) (b : Bool) :
    (List.replicate n b).count true = if b then n else 0 := by
  induction n with
  | zero => cases b <;> simp
  | succ k ih =>
      cases b <;> simp [List.replicate_succ, List.count_cons, ih]

/-- C1: at the failing input, the origin cache does hold a record for the
schedule key, but the record has expired and the upstream scrape fails;
the composite GET /api/matches resolve path then serves the mock fallback
dataset rather than the stale-cache tier, because node-cache (configured
with deleteOnExpire) hides the expired record from both lookups of the
handler.  The fallback function is called even though a record exists,
contrary to the claimed precedence. -/
theorem c1_expired_record_yields_fallback_not_stale :
    (exCacheExpired.entries.lookup scheduleKey).isSome = true ∧
    (ncGet exCacheExpired scheduleKey 5000000).1 = none ∧
    (matchesResolve exCacheExpired false (ScrapeOutcome.fail "scrape failed" "t1") 5000000).1.tier
      = ServedTier.mockFallbackTier ∧
    (matchesResolve exCacheExpired false (ScrapeOutcome.fail "scrape failed" "t1") 5000000).1.usedMock
      = true ∧
    (matchesResolve exCacheExpired false (ScrapeOutcome.fail "scrape failed" "t1") 5000000).1.tier
      ≠ ServedTier.staleTier := by
  decide

/-- C2 counterexample: with the cached record expired, 10 concurrent
resolve calls for the schedule key produce 10 upstream scrape
invocations, not 1: the handler has no in-flight coordination. -/
theorem c2_ten_concurrent_calls_make_ten_fetches :
    concurrentUpstreamCalls exCacheExpired 5000000 10 = 10 ∧ (10 : Nat) ≠ 1 := by
  decide

/-- C2 amended: the handler performs no fetch coalescing at all: n
concurrent resolve calls for the schedule key that all run their cache
check before any fetch completes invoke the upstream n times when no live
record exists, and 0 times when a live record exists. -/
theorem c2_no_coalescing (α : Type) (c : NodeCacheState (CachedDoc α)) (now n : Nat) :
    concurrentUpstreamCalls c now n =
      if ((ncGet c scheduleKey now).1).isSome then 0 else n := by
  unfold concurrentUpstreamCalls startsScrape
  rcases h : (ncGet c scheduleKey now).1 with _ | v <;>
    simp [h, count_true_replicate]

/-- C5 counterexample: with the cron interval of 2 time units and a job
lasting 3 units (1.5 intervals), the three ticks at 0, 2, 4 start 3 job
executions, not 2, and an execution does overlap a later tick: the cron
callback has no reentrancy guard, so no tick is skipped. -/
theorem c5_overlapping_ticks_not_skipped :
    (cronRun [0, 2, 4] 3).started = 3 ∧
    (cronRun [0, 2, 4] 3).overlapped = true ∧
    ¬ (cronRun [0, 2, 4] 3).started = 2 := by
  decide

/-- Foldl form of the tick count: every tick starts one execution. -/
theorem cronRun_foldl_started (l : List Nat) (dur : Nat) (s : CronState) :
    (l.foldl (fun s t => cronTick s t dur) s).started = s.started + l.length := by
  induction l generalizing s with
  | nil => simp
  | cons t ts ih =>
      simp only [List.foldl_cons]
      rw [ih]
      simp [cronTick]
      omega

/-- C5 amended: the scheduled-scrape cron callback has no reentrancy
guard; every tick starts a job execution regardless of whether the
previous one finished, so the number of executions equals the number of
ticks (3 invocations over 3 ticks with a 1.5-interval job, not 2). -/
theorem c5_every_tick_starts_job (ticks : List Nat) (dur : Nat) :
    (cronRun ticks dur).started = ticks.length := by
  simpa using cronRun_foldl_started ticks dur
    { runningUntil := [], started := 0, overlapped := false }

/-- C6 counterexample: the server.js cache is capped at 10 keys; with 10
keys stored, a set of an 11th key is rejected with the node-cache
ECACHEFULL error instead of evicting the oldest record. -/
theorem c6_full_cache_rejects_write :
    fullCache.entries.length = fullCache.maxKeys ∧
    ncSet fullCache "k10" 99 123456 = Except.error ecacheFull :=
  ⟨rfl, rfl⟩

/-- C6 amended: the store bounds its key count by the configured maxKeys:
a set against a full store is rejected with ECACHEFULL (the write is
refused, with no eviction), and a set against a store below capacity
succeeds and keeps the key count within the bound. -/
theorem c6_bounded_reject_no_evict (α : Type) (s : NodeCacheState α)
    (k : String) (v : α) (e : Nat) :
    (s.maxKeys ≤ s.entries.length → ncSet s k v e = Except.error ecacheFull) ∧
    (s.entries.length < s.maxKeys →
      ∃ s2, ncSet s k v e = Except.ok s2 ∧ s2.entries.length ≤ s.maxKeys) := by
  constructor
  · intro h
    simp [ncSet, h]
  · intro h
    refine ⟨{ s with entries :=
        if (s.entries.lookup k).isSome then
          s.entries.map (fun p => if p.1 = k then (k, ⟨v, e⟩) else p)
        else s.entries ++ [(k, ⟨v, e⟩)] }, ?_, ?_⟩
    · simp [ncSet, Nat.not_le.mpr h]
    · by_cases hl : (s.entries.lookup k).isSome = true <;> simp [hl] <;> omega

/-- C6 witness: the amended rejection branch evaluated at the full
fixture cache. -/
theorem c6_bounded_reject_no_evict_witness :
    ncSet fullCache "fresh-key" 5 0 = Except.error ecacheFull :=
  (c6_bounded_reject_no_evict Nat fullCache "fresh-key" 5 0).1 (by decide)

/-- An empty firstError means every outcome in the list resolved. -/
theorem firstError_eq_none (xs : List (Except String Unit)) :
    firstError xs = none ↔ ∀ x ∈ xs, x = Except.ok () := by
  induction xs with
  | nil => simp [firstError]
  | cons x xs ih =>
      cases x with
      | ok u => cases u; simp [firstError, ih]
      | error e => simp [firstError]

/-- C3 counterexample: orchestrating two keys where the second force
refresh rejects yields success false carrying the single caught error
(there is no per-key error map in the result type), and the phase-3
revalidation is skipped for every key: a phase-2 failure is fatal to the
batch. -/
theorem c3_phase2_failure_fatal_no_per_key_errors :
    (forceRefreshAll [Except.ok (), Except.error "key b refresh failed"] []).1
      = { success := false, error := some "key b refresh failed" } ∧
    (forceRefreshAll [Except.ok (), Except.error "key b refresh failed"] []).2.phase3Ran = false :=
  ⟨rfl, rfl⟩

/-- C3 amended: the three phases run in order; the overall result is
success exactly when every phase-2 and every phase-3 outcome succeeded;
phase 3 is reached exactly when every phase-2 outcome succeeded (so any
phase-2 failure aborts the batch before revalidation, surfacing one error,
not a per-key map); phase 1 always completes. -/
theorem c3_success_iff_all_phases_ok (p2 p3 : List (Except String Unit)) :
    ((forceRefreshAll p2 p3).1.success = true ↔
      ((∀ x ∈ p2, x = Except.ok ()) ∧ (∀ x ∈ p3, x = Except.ok ()))) ∧
    ((forceRefreshAll p2 p3).2.phase3Ran = true ↔ (∀ x ∈ p2, x = Except.ok ())) ∧
    ((forceRefreshAll p2 p3).1.error = none ↔ (forceRefreshAll p2 p3).1.success = true) ∧
    (forceRefreshAll p2 p3).2.phase1Ran = true := by
  rcases h2 : firstError p2 with _ | e2 <;> rcases h3 : firstError p3 with _ | e3 <;>
    simp [forceRefreshAll, h2, h3, ← firstError_eq_none]

/-- Every sleep recorded by the navigation retry loop is the configured
delay. -/
theorem navLoop_delays (delay : Nat) (outcome : Nat → Bool) (r i : Nat) :
    ∀ d ∈ (navLoop delay outcome r i).delays, d = delay := by
  induction r generalizing i with
  | zero => simp [navLoop]
  | succ r ih =>
      intro d hd
      by_cases h : outcome i
      · simp [navLoop, h] at hd
      · by_cases hr : r = 0
        · simp [navLoop, h, hr] at hd
        · simp only [navLoop, h, hr, if_false, if_neg, Bool.false_eq_true,
            ite_false, List.mem_cons] at hd
          rcases hd with rfl | hd
          · rfl
          · exact ih (i + 1) d hd

/-- The retry loop makes at most r further attempts. -/
theorem navLoop_attempts_le (delay : Nat) (outcome : Nat → Bool) (r i : Nat) :
    (navLoop delay outcome r i).attempts ≤ i + r := by
  induction r generalizing i with
  | zero => simp [navLoop]
  | succ r ih =>
      by_cases h : outcome i
      · simp [navLoop, h]
      · by_cases hr : r = 0
        · simp [navLoop, h, hr]
        · simp only [navLoop, h, hr, Bool.false_eq_true, ite_false, if_neg]
          have := ih (i + 1)
          omega

/-- With every attempt failing, the loop uses its whole budget: r fresh
attempts with r - 1 sleeps between them. -/
theorem navLoop_all_fail (delay : Nat) (outcome : Nat → Bool)
    (hall : ∀ j, outcome j = false) (r i : Nat) :
    (navLoop delay outcome r i).attempts = i + r ∧
    (navLoop delay outcome r i).delays.length = r - 1 := by
  induction r generalizing i with
  | zero => simp [navLoop]
  | succ r ih =>
      by_cases hr : r = 0
      · simp [navLoop, hall i, hr]
      · have := ih (i + 1)
        simp only [navLoop, hall i, Bool.false_eq_true, ite_false, hr, if_neg,
          List.length_cons]
        omega

/-- C7: for every configuration and every sequence of attempt outcomes,
the delay between consecutive retry attempts is the fixed configured
constant (no exponential backoff), the number of upstream attempts never
exceeds the configured retry budget, every retry is a fresh attempt (with
all attempts failing, exactly the budget of attempts is made), and the
shipped DEFAULT_CONFIG sets retries = 3 with a 5000 ms delay. -/
theorem c7_fixed_delay_bounded_retries (cfg : ScraperConfig) (outcome : Nat → Bool) :
    (∀ d ∈ (navigateWithRetry cfg outcome).delays, d = cfg.delay) ∧
    (navigateWithRetry cfg outcome).attempts ≤ cfg.retries ∧
    ((∀ j, outcome j = false) →
      (navigateWithRetry cfg outcome).attempts = cfg.retries) ∧
    defaultConfig.retries = 3 ∧ defaultConfig.delay = 5000 := by
  refine ⟨navLoop_delays _ _ _ _, ?_, ?_, rfl, rfl⟩
  · simpa using navLoop_attempts_le cfg.delay outcome cfg.retries 0
  · intro hall
    simpa using (navLoop_all_fail cfg.delay outcome hall cfg.retries 0).1

/-- C7 witness: with DEFAULT_CONFIG and every attempt failing, exactly 3
attempts are made. -/
theorem c7_fixed_delay_bounded_retries_witness :
    (navigateWithRetry defaultConfig (fun _ => false)).attempts = 3 :=
  (c7_fixed_delay_bounded_retries defaultConfig (fun _ => false)).2.2.1 (fun _ => rfl)

/-- C8: the freshness classification is exactly the claimed threshold
scheme: live data is fresh iff its age is under 30 s, stale iff between
30 s and 120 s, old iff at least 120 s; points data is fresh iff under
120 s, stale iff between 120 s and 300 s, old iff at least 300 s. -/
theorem c8_freshness_thresholds (now lt pt : ℚ) :
    ((dataFreshness now (some lt) (some pt)).live = FreshnessClass.fresh ↔
      (now - lt) / 1000 < 30) ∧
    ((dataFreshness now (some lt) (some pt)).live = FreshnessClass.stale ↔
      30 ≤ (now - lt) / 1000 ∧ (now - lt) / 1000 < 120) ∧
    ((dataFreshness now (some lt) (some pt)).live = FreshnessClass.old ↔
      120 ≤ (now - lt) / 1000) ∧
    ((dataFreshness now (some lt) (some pt)).points = FreshnessClass.fresh ↔
      (now - pt) / 1000 < 120) ∧
    ((dataFreshness now (some lt) (some pt)).points = FreshnessClass.stale ↔
      120 ≤ (now - pt) / 1000 ∧ (now - pt) / 1000 < 300) ∧
    ((dataFreshness now (some lt) (some pt)).points = FreshnessClass.old ↔
      300 ≤ (now - pt) / 1000) := by
  simp only [dataFreshness, Option.getD_some]
  split_ifs with h1 h2 h3 h4 <;>
    simp_all <;>
    first
      | linarith
      | (constructor <;> linarith)

/-- C9: the exported swrKeys of the config module and the inline swrKeys
copy of the client hooks module are extensionally equal on every input:
matches, pointsTable and schedule produce identical key strings, so cache
clearing keyed by one module targets exactly the entries the other
populates. -/
theorem c9_swr_key_generators_agree (status : Option String) (limit : Option Nat)
    (sort ord : Option String) (filters : Option ScheduleFilters) :
    swrKeysMatches status limit = clientSwrKeysMatches status limit ∧
    swrKeysPointsTable sort ord = clientSwrKeysPointsTable sort ord ∧
    swrKeysSchedule filters = clientSwrKeysSchedule filters :=
  ⟨rfl, rfl, rfl⟩

/-- One pushMatch call grows exactly one bucket by the pushed match. -/
theorem pushMatch_buckets (sched : OrganizedSchedule) (m : ScrapedMatch) :
    (pushMatch sched m).preSeason
      = sched.preSeason ++
        (if categorize m.matchType = BucketTag.preSeasonTag then [m] else []) ∧
    (pushMatch sched m).league
      = sched.league ++
        (if categorize m.matchType = BucketTag.leagueTag then [m] else []) ∧
    (pushMatch sched m).playoffs
      = sched.playoffs ++
        (if categorize m.matchType = BucketTag.playoffsTag then [m] else []) ∧
    (pushMatch sched m).final
      = sched.final ++
        (if categorize m.matchType = BucketTag.finalTag then [m] else []) := by
  unfold pushMatch
  rcases h : categorize m.matchType <;> simp [h]

/-- Folding pushMatch filters each bucket by its routing tag. -/
theorem foldl_pushMatch_league (l : List ScrapedMatch) (acc : OrganizedSchedule) :
    (l.foldl pushMatch acc).league
      = acc.league ++ l.filter (fun m => categorize m.matchType == BucketTag.leagueTag) := by
  induction l generalizing acc with
  | nil => simp
  | cons m ms ih =>
      simp only [List.foldl_cons, ih, (pushMatch_buckets acc m).2.1]
      by_cases h : categorize m.matchType = BucketTag.leagueTag <;>
        simp [h, List.filter_cons]

/-- Each processed match adds exactly one to the total bucket count. -/
theorem totalCount_pushMatch (sched : OrganizedSchedule) (m : ScrapedMatch) :
    totalCount (pushMatch sched m) = totalCount sched + 1 := by
  unfold pushMatch totalCount
  rcases categorize m.matchType <;> simp <;> omega

/-- Folding pushMatch over a list adds its length to the total count. -/
theorem totalCount_foldl (l : List ScrapedMatch) (acc : OrganizedSchedule) :
    totalCount (l.foldl pushMatch acc) = totalCount acc + l.length := by
  induction l generalizing acc with
  | nil => simp
  | cons m ms ih =>
      simp only [List.foldl_cons, ih, totalCount_pushMatch, List.length_cons]
      omega

/-- C10: organizeMatchesByType returns an object with exactly the four
keys PRE SEASON, LEAGUE, PLAYOFFS, FINAL; the bucket sizes add up to the
input length (every match lands in exactly one bucket); and a match with
a missing matchType lands in the LEAGUE bucket. -/
theorem c10_organize_partitions (ms : List ScrapedMatch) :
    ((scheduleEntriesOf (organizeMatchesByType ms)).map Prod.fst
      = ["PRE SEASON", "LEAGUE", "PLAYOFFS", "FINAL"]) ∧
    totalCount (organizeMatchesByType ms) = ms.length ∧
    (∀ m ∈ ms, m.matchType = none → m ∈ (organizeMatchesByType ms).league) := by
  refine ⟨rfl, ?_, ?_⟩
  · simpa [totalCount] using totalCount_foldl ms
      { preSeason := [], league := [], playoffs := [], final := [] }
  · intro m hm hnone
    unfold organizeMatchesByType
    rw [foldl_pushMatch_league]
    simp only [List.nil_append]
    refine List.mem_filter.mpr ⟨hm, ?_⟩
    rw [hnone]
    decide

/-- Escaping a run of plain letters leaves its length unchanged. -/
theorem escapeList_replicate_a (n : Nat) :
    (escapeList (List.replicate n 'a')).length = n := by
  induction n with
  | zero => rfl
  | succ k ih =>
      rw [List.replicate_succ]
      show (escapeChar 'a' ++ escapeList (List.replicate k 'a')).length = k + 1
      have ha : escapeChar 'a' = "a" := rfl
      have h1 : ("a" : String).length = 1 := rfl
      rw [ha, String.length_append, ih, h1]
      omega

/-- Length of the serialized one-field payload family: the constant
frame plus the length of the varying team value. -/
theorem serialize_payloadOfNat_len (k : Nat) :
    (serializeJson (payloadOfNat k)).length = 78 + k := by
  simp [payloadOfNat, payloadWithTeam, serializeJson, serializeFields, serializeElems,
    quoteStr, escapeList_replicate_a, escapeList, escapeChar,
    show ("\x7b" : String).length = 1 from rfl,
    show ("\"" : String).length = 1 from rfl,
    show (":" : String).length = 1 from rfl,
    show ("[" : String).length = 1 from rfl,
    show (toString (1 : Int)).length = 1 from rfl,
    show ("," : String).length = 1 from rfl,
    show ("\x7d" : String).length = 1 from rfl,
    show ("]" : String).length = 1 from rfl]
  omega

/-- Bound combinator for assembling base-2^32 digits. -/
theorem addMulLt {b x y c : Nat} (hx : x < b) (hy : y < c) : x + b * y < b * c := by
  have h2 : b + b * y = b * (1 + y) := by ring
  have h3 : b * (1 + y) ≤ b * c := Nat.mul_le_mul_left b (by omega)
  omega

/-- The assembled digest is a 128-bit quantity. -/
theorem md5Final_lt (st : MD5State) : md5Final st < 2 ^ 128 := by
  have hm : 0 < m32 := by norm_num [m32]
  have ha : st.a % m32 < m32 := Nat.mod_lt _ hm
  have hb : st.b % m32 < m32 := Nat.mod_lt _ hm
  have hc : st.c % m32 < m32 := Nat.mod_lt _ hm
  have hd : st.d % m32 < m32 := Nat.mod_lt _ hm
  have h1 : st.c % m32 + m32 * (st.d % m32) < m32 * m32 := addMulLt hc hd
  have h2 : st.b % m32 + m32 * (st.c % m32 + m32 * (st.d % m32)) < m32 * (m32 * m32) :=
    addMulLt hb h1
  have h3 : md5Final st < m32 * (m32 * (m32 * m32)) := addMulLt ha h2
  have h4 : m32 * (m32 * (m32 * m32)) = 2 ^ 128 := by norm_num [m32]
  omega

/-- Every MD5 digest value is below 2 to the 128. -/
theorem md5Digest_lt (msg : List Nat) : md5Digest msg < 2 ^ 128 :=
  md5Final_lt _

/-- C4 counterexample: changing one field does not always change the
tag: because the digest has only 2 to the 128 possible values while the
one-field payload family is infinite, there exist two payloads that
differ only in the team field yet carry the same etag.  This proves the
negation of the universally quantified one-field clause of the claim. -/
theorem c4_one_field_collision_exists :
    ∃ s t : String, s ≠ t ∧ etagOf (payloadWithTeam s) = etagOf (payloadWithTeam t) := by
  have h2p : (0 : Nat) < 2 ^ 128 := by positivity
  obtain ⟨n, m, hne, heq⟩ := Finite.exists_ne_map_eq_of_infinite
    (fun n : Nat => (⟨md5Digest (strBytes (serializeJson (payloadOfNat n))) % 2 ^ 128,
      Nat.mod_lt _ h2p⟩ : Fin (2 ^ 128)))
  refine ⟨String.mk (List.replicate n 'a'), String.mk (List.replicate m 'a'), ?_, ?_⟩
  · intro h
    apply hne
    have hdata : List.replicate n 'a' = List.replicate m 'a' := congrArg String.data h
    have hlen := congrArg List.length hdata
    simpa using hlen
  · simp only [Fin.mk.injEq] at heq
    rw [Nat.mod_eq_of_lt (md5Digest_lt _), Nat.mod_eq_of_lt (md5Digest_lt _)] at heq
    show etagOf (payloadOfNat n) = etagOf (payloadOfNat m)
    unfold etagOf md5Hex
    rw [heq]

set_option maxRecDepth 200000 in
set_option maxHeartbeats 4000000 in
/-- C4 amended: the etag is a pure deterministic function of the
canonical (insertion-order) JSON serialization of the payload: equal
serializations always yield equal tags (so structurally equal payloads
yield equal tags); changing the one varying field always changes the
serialization; and for concrete distinct team values the tags indeed
differ, though not universally (see the collision counterexample). -/
theorem c4_etag_deterministic_of_serialization :
    (∀ p q : Json, serializeJson p = serializeJson q → etagOf p = etagOf q) ∧
    (∀ n m : Nat, n ≠ m →
      serializeJson (payloadOfNat n) ≠ serializeJson (payloadOfNat m)) ∧
    etagOf (payloadWithTeam "MI") ≠ etagOf (payloadWithTeam "CSK") := by
  refine ⟨?_, ?_, ?_⟩
  · intro p q h
    unfold etagOf
    rw [h]
  · intro n m hne h
    apply hne
    have hl := congrArg String.length h
    rw [serialize_payloadOfNat_len, serialize_payloadOfNat_len] at hl
    omega
  · decide

/-- C4 witness: determinism applied at a concrete payload, and the
serialization-injectivity clause applied at indices 0 and 1. -/
theorem c4_etag_deterministic_of_serialization_witness :
    etagOf (payloadWithTeam "MI") = etagOf (payloadWithTeam "MI") ∧
    serializeJson (payloadOfNat 0) ≠ serializeJson (payloadOfNat 1) :=
  ⟨c4_etag_deterministic_of_serialization.1 (payloadWithTeam "MI") (payloadWithTeam "MI") rfl,
   c4_etag_deterministic_of_serialization.2.1 0 1 (by decide)⟩

/-- C10 witness: a three-match input, one with a missing matchType, is
partitioned with totals preserved and the missing-type match in LEAGUE. -/
theorem c10_organize_partitions_witness :
    totalCount (organizeMatchesByType
      [{ matchType := some "Final", matchNumber := 1 },
       { matchType := none, matchNumber := 2 },
       { matchType := some "Qualifier 1", matchNumber := 3 }]) = 3 ∧
    ({ matchType := none, matchNumber := 2 } : ScrapedMatch) ∈
      (organizeMatchesByType
        [{ matchType := some "Final", matchNumber := 1 },
         { matchType := none, matchNumber := 2 },
         { matchType := some "Qualifier 1", matchNumber := 3 }]).league := by
  have h := c10_organize_partitions
    [{ matchType := some "Final", matchNumber := 1 },
     { matchType := none, matchNumber := 2 },
     { matchType := some "Qualifier 1", matchNumber := 3 }]
  exact ⟨h.2.1, h.2.2 { matchType := none, matchNumber := 2 } (by simp) rfl⟩

end IPLDash
